import Mathlib

/-!
Shallow embedding of `src/pytest_cov/engine.py` (coverage controllers for
distributed test runs): the controller lifecycle (start / pause / resume /
finish), the Environment Channel (the four COV_CORE_* environment
variables), collocation detection and path rewriting on workers, the
sideband worker-output protocol, and the master's per-worker disconnect
handling.

The external coverage-measurement engine (the `coverage` package) is opaque
per the spec; its sessions are modelled as bookkeeping records of which
operations (start / stop / save / combine / erase / load) have been applied.
Ambient OS facts (hostname, pid, cwd, path separator, `os.path.abspath`,
`os.path.exists`) are threaded through as an explicit `Sys` record.
-/

namespace PytestCov

/-- `sys.version_info` as consumed by `get_node_desc` (its first five
components: major, minor, micro, releaselevel, serial). -/
structure VersionInfo where
  major : Nat
  minor : Nat
  micro : Nat
  level : String
  serial : Nat
deriving DecidableEq, Repr

/-- Ambient OS facts used by `engine.py`: `socket.gethostname()`,
`os.getpid()`, `os.getcwd()` (read once in `CovController.__init__` as
`self.topdir`), `os.pathsep`, `os.path.abspath`, `os.path.exists`,
`sys.platform` and `sys.version_info`. -/
structure Sys where
  hostname : String
  pid : Nat
  cwd : String
  pathsep : String
  abspath : String → String
  pathExists : String → Bool
  platform : String
  versionInfo : VersionInfo

/-- The restriction of `os.environ` to the four COV_CORE_* keys touched by
`CovController.set_env` / `CovController.unset_env`: `COV_CORE_SOURCE`,
`COV_CORE_CONFIG`, `COV_CORE_DATAFILE`, `COV_CORE_BRANCH`. `none` means the
variable is absent from the process environment. -/
structure EnvChannel where
  source : Option String
  config : Option String
  datafile : Option String
  branch : Option String
deriving DecidableEq, Repr

/-- `CovController.set_env` (engine.py lines 61-74): writes
`COV_CORE_SOURCE` (pathsep-join of the roots, or a lone pathsep when
`cov_source is None`), `COV_CORE_CONFIG` (the absolute config path when it
exists, else a lone pathsep), `COV_CORE_DATAFILE` (the absolute data-file
path), and `COV_CORE_BRANCH = 'enabled'` only when `cov_branch` is truthy
(when it is falsy the variable is not written, hence left as it was). -/
def set_env (sys : Sys) (cov_source : Option (List String)) (cov_config : String)
    (data_file : String) (cov_branch : Bool) (env : EnvChannel) : EnvChannel :=
  let srcVal := match cov_source with
    | none => sys.pathsep
    | some roots => String.intercalate sys.pathsep roots
  let config_file := sys.abspath cov_config
  let cfgVal := if sys.pathExists config_file then config_file else sys.pathsep
  { env with
    source := some srcVal
    config := some cfgVal
    datafile := some (sys.abspath data_file)
    branch := if cov_branch then some "enabled" else env.branch }

/-- `CovController.unset_env` (engine.py lines 76-82): pops all four
COV_CORE_* variables from the environment. -/
def unset_env (_env : EnvChannel) : EnvChannel :=
  { source := none, config := none, datafile := none, branch := none }

/-- `CovController.get_node_desc` (engine.py lines 84-88):
`'platform %s, python %s' % (platform, '%s.%s.%s-%s-%s' % version_info[:5])`. -/
def get_node_desc (platform : String) (v : VersionInfo) : String :=
  "platform " ++ platform ++ ", python " ++
    (toString v.major ++ "." ++ toString v.minor ++ "." ++ toString v.micro ++
     "-" ++ v.level ++ "-" ++ toString v.serial)

/-- Python `str.replace(old, new)` on character lists, for non-empty `old`:
scan left to right; at each position, if `old` is a prefix there, emit `new`
and skip past that occurrence, otherwise keep one character and continue
(non-overlapping, leftmost-first). The fuel argument (always called with the
length of the string, which bounds the number of steps) keeps the recursion
structural so that the kernel can evaluate it. For empty `old` this returns
the string unchanged; `engine.py` only ever calls it with `old` the master's
top directory, a non-empty `os.getcwd()` result. -/
def pyReplaceAux : Nat → List Char → List Char → List Char → List Char
  | 0, s, _, _ => s
  | _ + 1, [], _, _ => []
  | n + 1, c :: cs, old, new =>
    if !old.isEmpty && old.isPrefixOf (c :: cs) then
      new ++ pyReplaceAux n ((c :: cs).drop old.length) old new
    else
      c :: pyReplaceAux n cs old new

/-- Python `str.replace` on strings (see `pyReplaceAux`). -/
def pyStrReplace (s old new : String) : String :=
  String.mk (pyReplaceAux s.data.length s.data old.data new.data)

/-- `old` occurs as a contiguous substring of `s` (what Python
`old in s` / `str.replace` reacts to), for non-empty `old`. -/
def occursIn (old : List Char) : List Char → Bool
  | [] => old.isEmpty
  | c :: cs => old.isPrefixOf (c :: cs) || occursIn old cs

/-- The sideband pre-run input mapping written by
`DistMaster.configure_node` into `workerinput` (engine.py lines 189-196). -/
structure WorkerInput where
  cov_master_host : String
  cov_master_topdir : String
  cov_master_rsync_roots : List String
deriving DecidableEq, Repr

/-- The sideband post-run output mapping (`workeroutput`) as touched by
`DistWorker.finish` and read by `DistMaster.testnodedown`; each field is one
dict key, `none` meaning the key is absent. -/
structure WorkerOutput where
  cov_worker_node_id : Option String
  cov_worker_path : Option String
  cov_worker_data : Option String
deriving DecidableEq, Repr

/-- Bookkeeping for the opaque external coverage session (spec §2: "opaque
session object with start/stop/erase/load/save/combine operations"). -/
structure CovSession where
  started : Bool
  saved : Bool
  combined : Bool
  loaded : Bool
  erased : Bool
deriving DecidableEq, Repr

/-- A fresh, never-operated coverage session. -/
def CovSession.fresh : CovSession :=
  { started := false, saved := false, combined := false, loaded := false, erased := false }

/-- State of a `DistWorker` controller: the `RunConfig` fields set in
`CovController.__init__`, the collocation flag computed in
`DistWorker.start`, the Environment Channel, the session bookkeeping and
the worker's slice of `workeroutput`. `dataBuffer` stands for the
serialized dataset (`buff.getvalue()`) the worker would transmit. -/
structure WorkerCtl where
  cov_source : Option (List String)
  cov_branch : Bool
  cov_config : String
  data_file : String
  nodeid : String
  topdir : String
  is_collocated : Bool
  env : EnvChannel
  cov : CovSession
  output : WorkerOutput
  dataBuffer : String
deriving Repr

/-- Constructor arguments of a controller (`CovController.__init__`):
the immutable `RunConfig` of the spec. `data_file` is the canonical
data-file path of the session it builds (`self.cov.config.data_file`). -/
structure RunConfig where
  cov_source : Option (List String)
  cov_branch : Bool
  cov_append : Bool
  cov_config : String
  data_file : String
  nodeid : String
deriving DecidableEq, Repr

/-- The collocation test of `DistWorker.start` (engine.py lines 254-255):
`socket.gethostname() == workerinput['cov_master_host'] and
self.topdir == workerinput['cov_master_topdir']` (with `self.topdir` the
worker's `os.getcwd()`). -/
def collocatedWith (sys : Sys) (wi : WorkerInput) : Bool :=
  sys.hostname == wi.cov_master_host && sys.cwd == wi.cov_master_topdir

/-- The worker's `self.cov_source` after the rewrite step of
`DistWorker.start` (engine.py lines 261-263): when not collocated every
root goes through `source.replace(master_topdir, worker_topdir)`. -/
def workerSources (sys : Sys) (wi : WorkerInput) (c : RunConfig) : Option (List String) :=
  if collocatedWith sys wi then c.cov_source
  else match c.cov_source with
    | none => none
    | some roots => some (roots.map fun s => pyStrReplace s wi.cov_master_topdir sys.cwd)

/-- The worker's `self.cov_config` after the rewrite step of
`DistWorker.start` (engine.py line 264). -/
def workerConfigFile (sys : Sys) (wi : WorkerInput) (c : RunConfig) : String :=
  if collocatedWith sys wi then c.cov_config
  else pyStrReplace c.cov_config wi.cov_master_topdir sys.cwd

/-- `DistWorker.start` (engine.py lines 250-276): `embed.cleanup()`
(modelled from the spec: "tear down any stale process-wide setup" — it
stops a leftover embedded session and does not touch the environment),
collocation detection, path rewriting via `str.replace` when not
collocated, erase-or-load, session start, `set_env`. -/
def distWorkerStart (sys : Sys) (wi : WorkerInput) (c : RunConfig)
    (env0 : EnvChannel) : WorkerCtl :=
  { cov_source := workerSources sys wi c
    cov_branch := c.cov_branch
    cov_config := workerConfigFile sys wi c
    data_file := c.data_file
    nodeid := c.nodeid
    topdir := sys.cwd
    is_collocated := collocatedWith sys wi
    env := set_env sys (workerSources sys wi c) (workerConfigFile sys wi c)
             c.data_file c.cov_branch env0
    cov := { CovSession.fresh with
              started := true, loaded := c.cov_append, erased := !c.cov_append }
    output := { cov_worker_node_id := none, cov_worker_path := none, cov_worker_data := none }
    dataBuffer := "" }

/-- `CovController.pause` for a worker: `self.cov.stop(); self.unset_env()`. -/
def workerPause (w : WorkerCtl) : WorkerCtl :=
  { w with cov := { w.cov with started := false }, env := unset_env w.env }

/-- `CovController.resume` for a worker: `self.cov.start(); self.set_env()`. -/
def workerResume (sys : Sys) (w : WorkerCtl) : WorkerCtl :=
  { w with cov := { w.cov with started := true }
           env := set_env sys w.cov_source w.cov_config w.data_file w.cov_branch w.env }

/-- `DistWorker.finish` (engine.py lines 278-306): `unset_env`, stop; if
collocated, save (deliberately no combine) and write only
`cov_worker_node_id`; otherwise combine, save, serialize and write
`cov_worker_path`, `cov_worker_node_id` and `cov_worker_data` (a
`dict.update`, so the three keys are written on top of the existing
output). `serialize` abstracts `self.cov.data.write_fileobj(buff)`. -/
def distWorkerFinish (serialize : WorkerCtl → String) (w : WorkerCtl) : WorkerCtl :=
  let w := { w with env := unset_env w.env, cov := { w.cov with started := false } }
  if w.is_collocated then
    { w with cov := { w.cov with saved := true }
             output := { w.output with cov_worker_node_id := some w.nodeid } }
  else
    let w := { w with cov := { w.cov with combined := true, saved := true } }
    let buff := serialize w
    { w with
      dataBuffer := buff
      output := { w.output with
                   cov_worker_path := some w.topdir
                   cov_worker_node_id := some w.nodeid
                   cov_worker_data := some buff } }

/-- State of a `Central` controller (single-process topology). -/
structure CentralCtl where
  cov_source : Option (List String)
  cov_branch : Bool
  cov_config : String
  data_file : String
  env : EnvChannel
  cov : CovSession
  combining_cov : CovSession
  usingCombining : Bool
  node_descs : Finset String

/-- `Central.start` (engine.py lines 130-147): `cleanup()` (modelled from
the spec, no environment effect), build the primary and combining sessions,
erase-or-load per `cov_append`, start measurement, `set_env`. -/
def centralStart (sys : Sys) (c : RunConfig) (env0 : EnvChannel) : CentralCtl :=
  { cov_source := c.cov_source
    cov_branch := c.cov_branch
    cov_config := c.cov_config
    data_file := c.data_file
    env := set_env sys c.cov_source c.cov_config c.data_file c.cov_branch env0
    cov := { CovSession.fresh with
              started := true, loaded := c.cov_append, erased := !c.cov_append }
    combining_cov := CovSession.fresh
    usingCombining := false
    node_descs := ∅ }

/-- `CovController.pause` for a Central controller. -/
def centralPause (c : CentralCtl) : CentralCtl :=
  { c with cov := { c.cov with started := false }, env := unset_env c.env }

/-- `CovController.resume` for a Central controller. -/
def centralResume (sys : Sys) (c : CentralCtl) : CentralCtl :=
  { c with cov := { c.cov with started := true }
           env := set_env sys c.cov_source c.cov_config c.data_file c.cov_branch c.env }

/-- `Central.finish` (engine.py lines 149-162): `unset_env`, stop, save,
switch `self.cov` to the combining session, load, combine, save, record the
local node descriptor. -/
def centralFinish (sys : Sys) (c : CentralCtl) : CentralCtl :=
  { c with
    env := unset_env c.env
    cov := { c.cov with started := false, saved := true }
    combining_cov := { c.combining_cov with loaded := true, combined := true, saved := true }
    usingCombining := true
    node_descs := insert (get_node_desc sys.platform sys.versionInfo) c.node_descs }

/-- A worker handle as seen by the master: `node.gateway.id` plus the
remote runtime metadata `node.gateway._rinfo()` read in `testnodedown`. -/
structure Node where
  gatewayId : String
  platform : String
  versionInfo : VersionInfo
deriving DecidableEq, Repr

/-- State of a `DistMaster` controller. `sourcePaths` models
`self.cov.config.paths['source']`; `written` models the uniquely-suffixed
data files saved on the master in `testnodedown` (suffix paired with the
worker payload merged into that file); `rsyncdirs` models
`self.config.option.rsyncdir`. -/
structure MasterCtl where
  cov_source : Option (List String)
  cov_branch : Bool
  cov_config : String
  data_file : String
  topdir : String
  env : EnvChannel
  cov : CovSession
  combining_cov : CovSession
  usingCombining : Bool
  node_descs : Finset String
  failed_workers : List Node
  sourcePaths : List String
  written : List (String × String)
  rsyncdirs : List String

/-- `DistMaster.start` (engine.py lines 168-187): `cleanup()`, request
rsync of the config file when it is set and exists, build both sessions,
erase-or-load, start, pin `paths['source']` to `[self.topdir]`. Note: no
`set_env` call — the Environment Channel is left untouched. -/
def distMasterStart (sys : Sys) (c : RunConfig) (env0 : EnvChannel)
    (rsyncdirs0 : List String) : MasterCtl :=
  { cov_source := c.cov_source
    cov_branch := c.cov_branch
    cov_config := c.cov_config
    data_file := c.data_file
    topdir := sys.cwd
    env := env0
    cov := { CovSession.fresh with
              started := true, loaded := c.cov_append, erased := !c.cov_append }
    combining_cov := CovSession.fresh
    usingCombining := false
    node_descs := ∅
    failed_workers := []
    sourcePaths := [sys.cwd]
    written := []
    rsyncdirs :=
      if c.cov_config ≠ "" && sys.pathExists c.cov_config
      then rsyncdirs0 ++ [c.cov_config] else rsyncdirs0 }

/-- `CovController.pause` for a master. -/
def masterPause (m : MasterCtl) : MasterCtl :=
  { m with cov := { m.cov with started := false }, env := unset_env m.env }

/-- `CovController.resume` for a master: `self.cov.start(); self.set_env()`
(the base-class method applies to `DistMaster` as well). -/
def masterResume (sys : Sys) (m : MasterCtl) : MasterCtl :=
  { m with cov := { m.cov with started := true }
           env := set_env sys m.cov_source m.cov_config m.data_file m.cov_branch m.env }

/-- `DistMaster.configure_node` (engine.py lines 189-196): the sideband
input written into `workerinput` before the worker starts. -/
def configure_node (sys : Sys) (m : MasterCtl) (roots : List String) : WorkerInput :=
  { cov_master_host := sys.hostname
    cov_master_topdir := m.topdir
    cov_master_rsync_roots := roots }

/-- The data-file suffix allocated in `DistMaster.testnodedown`
(engine.py lines 211-215): `'%s.%s.%06d.%s' % (hostname, pid, rand, node_id)`
with the random component zero-padded to (at least) six digits. -/
def pad6 (r : Nat) : String :=
  let s := toString r
  String.mk (List.replicate (6 - s.length) '0' ++ s.data)

/-- See `pad6`: the full dot-separated suffix. -/
def dataSuffix (hostname : String) (pid : Nat) (rand : Nat) (nodeId : String) : String :=
  hostname ++ "." ++ toString pid ++ "." ++ pad6 rand ++ "." ++ nodeId

/-- `DistMaster.testnodedown` (engine.py lines 198-233). Absent
`cov_worker_node_id`: append the node to `failed_workers` and return.
Present with `cov_worker_data`: allocate a fresh suffixed session, read the
payload into it, save, and register `cov_worker_path` as an extra source
path (a missing `cov_worker_path` there would raise `KeyError`, modelled as
`none`). In both remaining cases record the node descriptor from the
worker's `_rinfo()`. `rand` stands for `random.randint(0, 999999)`. -/
def testnodedown (sys : Sys) (m : MasterCtl) (node : Node) (output : WorkerOutput)
    (rand : Nat) : Option MasterCtl :=
  match output.cov_worker_node_id with
  | none => some { m with failed_workers := m.failed_workers ++ [node] }
  | some nodeId =>
    let withDesc (m : MasterCtl) : MasterCtl :=
      { m with node_descs := insert (get_node_desc node.platform node.versionInfo) m.node_descs }
    match output.cov_worker_data with
    | none => some (withDesc m)
    | some payload =>
      match output.cov_worker_path with
      | none => none
      | some path =>
        some (withDesc
          { m with
            written := m.written ++ [(dataSuffix sys.hostname sys.pid rand nodeId, payload)]
            sourcePaths := m.sourcePaths ++ [path] })

/-- `DistMaster.finish` (engine.py lines 235-244): stop, save, switch to
the combining session, load, combine, save. Note: no `unset_env` call and
no node-descriptor recording — the environment, `node_descs`,
`failed_workers`, `sourcePaths` and `written` are all left untouched. -/
def distMasterFinish (m : MasterCtl) : MasterCtl :=
  { m with
    cov := { m.cov with started := false, saved := true }
    combining_cov := { m.combining_cov with loaded := true, combined := true, saved := true }
    usingCombining := true }

/-- The end-to-end distributed scenario of the spec (§8): a master starts,
worker `n1` disconnects reporting only a node id (collocated), worker `n2`
disconnects reporting node id + top directory + payload (not collocated),
then the master finishes. -/
def masterScenario (sys : Sys) (c : RunConfig) (env0 : EnvChannel)
    (n1 n2 : Node) (out1 out2 : WorkerOutput) (r1 r2 : Nat) : Option MasterCtl :=
  (testnodedown sys (distMasterStart sys c env0 []) n1 out1 r1).bind fun m1 =>
    (testnodedown sys m1 n2 out2 r2).map distMasterFinish

/-- `sep_total` in `CovController.sep` (engine.py line 95):
`max((70 - 2 - len(txt)), 2)` over Python integers. -/
def sepTotal (txt : String) : Nat :=
  (max (70 - 2 - (txt.length : Int)) 2).toNat

/-- The fallback separator line written by `CovController.sep`
(engine.py lines 94-99) when the stream lacks a `sep` attribute, for a
one-character separator string `s`:
`'%s %s %s\n' % (s * sep_len, txt, s * (sep_len + sep_extra))`. -/
def sepLine (s : Char) (txt : String) : List Char :=
  let sep_len := sepTotal txt / 2
  let sep_extra := sepTotal txt % 2
  List.replicate sep_len s ++
    ' ' :: (txt.data ++ ' ' :: (List.replicate (sep_len + sep_extra) s ++ ['\n']))

/-! Concrete fixtures used by witnesses and counterexamples. -/

/-- The empty environment: none of the four COV_CORE_* variables set. -/
def envEmpty : EnvChannel :=
  { source := none, config := none, datafile := none, branch := none }

/-- A master-side ambient system: hostname `mhost`, cwd `/m`. -/
def sysEx : Sys :=
  { hostname := "mhost", pid := 42, cwd := "/m", pathsep := ":"
    abspath := fun s => "/abs/" ++ s, pathExists := fun _ => false
    platform := "linux", versionInfo := ⟨3, 8, 0, "final", 0⟩ }

/-- A worker-side ambient system on another machine: hostname `whost`,
cwd `/w`. -/
def sysW : Sys :=
  { sysEx with hostname := "whost", cwd := "/w" }

/-- Sideband input announcing master host `mhost` and top directory `/m`. -/
def wiEx : WorkerInput :=
  { cov_master_host := "mhost", cov_master_topdir := "/m", cov_master_rsync_roots := [] }

/-- A run configuration whose single source root `/x/m/pkg` is not
prefixed by the master top directory `/m` but contains it as a substring. -/
def cfgSub : RunConfig :=
  { cov_source := some ["/x/m/pkg"], cov_branch := false, cov_append := false
    cov_config := ".coveragerc", data_file := ".coverage", nodeid := "gw0" }

/-- A plain run configuration with branch coverage off. -/
def cfgEx : RunConfig :=
  { cov_source := some ["/m/pkg"], cov_branch := false, cov_append := false
    cov_config := ".coveragerc", data_file := ".coverage", nodeid := "gw0" }

/-- An environment carrying a stale `COV_CORE_BRANCH` left by some ancestor
process (legitimate ambient state at controller start). -/
def envStaleBranch : EnvChannel :=
  { source := none, config := none, datafile := none, branch := some "enabled" }

/-- An environment in which `COV_CORE_SOURCE` is set (e.g. inherited from a
parent run). -/
def envWithSource : EnvChannel :=
  { source := some "/src", config := none, datafile := none, branch := none }

/-- A worker node handle with the master's platform metadata. -/
def nodeSame : Node :=
  { gatewayId := "gw0", platform := "linux", versionInfo := ⟨3, 8, 0, "final", 0⟩ }

/-- A worker node handle with a different platform. -/
def nodeOther : Node :=
  { gatewayId := "gw1", platform := "win32", versionInfo := ⟨3, 8, 0, "final", 0⟩ }

/-- A master controller freshly started in an environment where
`COV_CORE_SOURCE` is set. -/
def masterWithSource : MasterCtl :=
  distMasterStart sysEx cfgEx envWithSource []

/-- A master controller freshly started in an empty environment. -/
def masterEx : MasterCtl :=
  distMasterStart sysEx cfgEx envEmpty []

/-- A collocated worker controller (same hostname and topdir as the
master announced), freshly started. -/
def workerCol : WorkerCtl :=
  distWorkerStart sysEx wiEx cfgEx envEmpty

/-- A non-collocated worker controller (different hostname and topdir),
freshly started. -/
def workerRemote : WorkerCtl :=
  distWorkerStart sysW wiEx cfgEx envEmpty

/-- A fixed serializer standing for `cov.data.write_fileobj`. -/
def serEx : WorkerCtl → String := fun _ => "payload"

/-! Helper lemmas about the embedded Python `str.replace`. -/

/-- If `old` does not occur in `s`, the replacement scan leaves `s`
unchanged (for any fuel). -/
theorem pyReplaceAux_no_occurrence (new : List Char) :
    ∀ (fuel : Nat) (s old : List Char), occursIn old s = false →
      pyReplaceAux fuel s old new = s := by
  intro fuel
  induction fuel with
  | zero => intro s old _; rfl
  | succ n ih =>
    intro s old h
    cases s with
    | nil => rfl
    | cons c cs =>
      simp only [occursIn, Bool.or_eq_false_iff] at h
      simp only [pyReplaceAux, h.1, Bool.and_false, Bool.false_eq_true, if_false]
      rw [ih cs old h.2]

/-- If `s = old ++ rest` with `old` non-empty and `old` not occurring in
`rest`, the replacement scan rewrites exactly the leading occurrence. -/
theorem pyReplaceAux_leading_occurrence (o : Char) (os rest new : List Char)
    (h2 : occursIn (o :: os) rest = false) :
    pyReplaceAux ((o :: os) ++ rest).length ((o :: os) ++ rest) (o :: os) new
      = new ++ rest := by
  have hpre : (o :: os).isPrefixOf (o :: (os ++ rest)) = true := by
    rw [ List.isPrefixOf_iff_prefix]
    exact List.prefix_append (o :: os) rest
  have hdrop : (o :: (os ++ rest)).drop (o :: os).length = rest :=
    List.drop_left (o :: os) rest
  show pyReplaceAux ((os ++ rest).length + 1) (o :: (os ++ rest)) (o :: os) new
      = new ++ rest
  simp only [pyReplaceAux, hpre, List.isEmpty_cons, Bool.not_false, Bool.and_self,
    if_true, hdrop]
  rw [pyReplaceAux_no_occurrence new _ _ _ h2]

/-- String form of `pyReplaceAux_no_occurrence`. -/
theorem pyStrReplace_no_occurrence (s old new : String)
    (h : occursIn old.data s.data = false) : pyStrReplace s old new = s := by
  unfold pyStrReplace
  rw [pyReplaceAux_no_occurrence new.data s.data.length s.data old.data h]

/-- String form of `pyReplaceAux_leading_occurrence`. -/
theorem pyStrReplace_leading_occurrence (old rest new : String) (h : old ≠ "")
    (h2 : occursIn old.data rest.data = false) :
    pyStrReplace (old ++ rest) old new = new ++ rest := by
  obtain ⟨o, os, ho⟩ : ∃ o os, old.data = o :: os := by
    cases hd : old.data with
    | nil =>
      exact absurd (String.ext (by rw [hd])) h
    | cons o os => exact ⟨o, os, rfl⟩
  have hd : (old ++ rest).data = old.data ++ rest.data := String.data_append old rest
  unfold pyStrReplace
  rw [hd, ho]
  rw [pyReplaceAux_leading_occurrence o os rest.data new.data (ho ▸ h2)]
  exact String.ext (String.data_append new rest).symm

/-- C1: the worker started by `DistWorker.start` is classified as
collocated if and only if the worker's own hostname equals the master's
reported hostname (`cov_master_host`) and the worker's own top directory
equals the master's reported top directory (`cov_master_topdir`); if either
differs, collocation is false. -/
theorem C1_collocation_iff (sys : Sys) (wi : WorkerInput) (c : RunConfig)
    (env0 : EnvChannel) :
    (distWorkerStart sys wi c env0).is_collocated = true ↔
      (sys.hostname = wi.cov_master_host ∧ sys.cwd = wi.cov_master_topdir) := by
  simp [distWorkerStart, collocatedWith, Bool.and_eq_true, beq_iff_eq]

/-- C2 counterexample: the claim says a source root not prefixed by the
master's top directory is left completely unchanged, but the code uses
Python `str.replace`, which substitutes every occurrence anywhere in the
string. Worker (hostname `whost`, cwd `/w`) with master top directory
`/m` and source root `/x/m/pkg`: the root does not start with `/m`, yet
`DistWorker.start` rewrites it to `/x/w/pkg`. -/
theorem C2_rewrite_counterexample :
    ("/m".data.isPrefixOf "/x/m/pkg".data) = false ∧
    (distWorkerStart sysW wiEx cfgSub envEmpty).cov_source = some ["/x/w/pkg"] := by
  constructor
  · decide
  · decide

/-- C2 (amended): for a non-collocated worker, every configured source
root and the config-file path are rewritten with Python `str.replace`,
replacing every occurrence of the master's top directory; a path that
begins with the master's top directory (and does not contain it again
later) becomes the worker's top directory followed by the remainder, and a
path that does not contain the master's top directory anywhere is left
unchanged. -/
theorem C2_rewrite_amended (sys : Sys) (wi : WorkerInput) (c : RunConfig)
    (env0 : EnvChannel)
    (hcol : (distWorkerStart sys wi c env0).is_collocated = false) :
    ((distWorkerStart sys wi c env0).cov_config
        = pyStrReplace c.cov_config wi.cov_master_topdir sys.cwd)
  ∧ (∀ roots, c.cov_source = some roots →
      (distWorkerStart sys wi c env0).cov_source
        = some (roots.map fun s => pyStrReplace s wi.cov_master_topdir sys.cwd))
  ∧ (∀ old rest new1 : String, old ≠ "" → occursIn old.data rest.data = false →
      pyStrReplace (old ++ rest) old new1 = new1 ++ rest)
  ∧ (∀ s old new1 : String, occursIn old.data s.data = false →
      pyStrReplace s old new1 = s) := by
  have hc : collocatedWith sys wi = false := hcol
  refine ⟨?_, ?_, ?_, ?_⟩
  · show workerConfigFile sys wi c = _
    rw [workerConfigFile, hc]
    simp
  · intro roots hr
    show workerSources sys wi c = _
    rw [workerSources, hc, hr]
    simp
  · intro old rest new1 h1 h2
    exact pyStrReplace_leading_occurrence old rest new1 h1 h2
  · intro s old new1 h1
    exact pyStrReplace_no_occurrence s old new1 h1

/-- Witness for `C2_rewrite_amended`, at the concrete non-collocated
worker fixture: the prefixed root `/m` ++ `/pkg` rewrites to `/w` ++
`/pkg`, and a root with no occurrence of `/m` passes through. -/
theorem C2_rewrite_amended_witness :
    (distWorkerStart sysW wiEx cfgSub envEmpty).is_collocated = false
  ∧ pyStrReplace ("/m" ++ "/pkg") "/m" "/w" = "/w" ++ "/pkg"
  ∧ pyStrReplace "/quux" "/m" "/w" = "/quux" := by
  refine ⟨by decide, ?_, ?_⟩
  · exact (C2_rewrite_amended sysW wiEx cfgSub envEmpty (by decide)).2.2.1
      "/m" "/pkg" "/w" (by decide) (by decide)
  · exact (C2_rewrite_amended sysW wiEx cfgSub envEmpty (by decide)).2.2.2
      "/quux" "/m" "/w" (by decide)

/-- C3 counterexample: the claim says every controller variant's
`finish()` removes the four COV_CORE_* variables, but `DistMaster.finish`
(engine.py lines 235-244) never calls `unset_env` (and `DistMaster.start`
never calls `set_env`): starting a master in an environment where
`COV_CORE_SOURCE` is set and finishing it leaves the variable present. -/
theorem C3_finish_env_counterexample :
    (distMasterFinish masterWithSource).env.source = some "/src" := rfl

/-- C3 (amended): `Central.finish` and `DistWorker.finish` remove all four
COV_CORE_* variables, and `pause()` removes them for every variant;
`DistMaster.finish` leaves the process environment exactly as it was
(`DistMaster` never sets these variables in `start()` either). -/
theorem C3_finish_env_amended :
    (∀ (sys : Sys) (c : CentralCtl), (centralFinish sys c).env = envEmpty)
  ∧ (∀ (f : WorkerCtl → String) (w : WorkerCtl), (distWorkerFinish f w).env = envEmpty)
  ∧ (∀ m : MasterCtl, (distMasterFinish m).env = m.env)
  ∧ (∀ c : CentralCtl, (centralPause c).env = envEmpty)
  ∧ (∀ w : WorkerCtl, (workerPause w).env = envEmpty)
  ∧ (∀ m : MasterCtl, (masterPause m).env = envEmpty) := by
  refine ⟨fun sys c => rfl, fun f w => ?_, fun m => rfl, fun c => rfl,
    fun w => rfl, fun m => rfl⟩
  cases hc : w.is_collocated <;> simp [distWorkerFinish, hc, unset_env, envEmpty]

/-- C4: when the master handles a worker disconnect whose sideband output
lacks `cov_worker_node_id`, the worker is appended to `failed_workers` and
nothing else changes: no dataset is written, no source root registered, no
node descriptor added, and the environment is untouched. -/
theorem C4_failed_worker (sys : Sys) (m : MasterCtl) (node : Node)
    (output : WorkerOutput) (rand : Nat)
    (h : output.cov_worker_node_id = none) :
    testnodedown sys m node output rand =
      some { m with failed_workers := m.failed_workers ++ [node] } := by
  simp [testnodedown, h]

/-- Witness for `C4_failed_worker` at a concrete master state and an
output with no node identifier. -/
theorem C4_failed_worker_witness :
    testnodedown sysEx masterEx nodeOther ⟨none, none, none⟩ 0 =
      some { masterEx with failed_workers := masterEx.failed_workers ++ [nodeOther] } :=
  C4_failed_worker sysEx masterEx nodeOther ⟨none, none, none⟩ 0 rfl

/-- C5: `DistWorker.finish` on a worker whose sideband output is still
empty: if collocated it saves without combining and writes exactly the
node identifier (no top-directory key, no dataset key); if not collocated
it combines locally, saves, and writes exactly node identifier, own top
directory and the serialized dataset buffer. -/
theorem C5_worker_finish (f : WorkerCtl → String) (w : WorkerCtl)
    (h : w.output = ⟨none, none, none⟩) :
    (w.is_collocated = true →
      (distWorkerFinish f w).output = ⟨some w.nodeid, none, none⟩
      ∧ (distWorkerFinish f w).cov.saved = true
      ∧ (distWorkerFinish f w).cov.combined = w.cov.combined)
  ∧ (w.is_collocated = false →
      (distWorkerFinish f w).output
        = ⟨some w.nodeid, some w.topdir, some ((distWorkerFinish f w).dataBuffer)⟩
      ∧ (distWorkerFinish f w).cov.combined = true
      ∧ (distWorkerFinish f w).cov.saved = true) := by
  constructor
  · intro hc
    simp [distWorkerFinish, hc, h]
  · intro hc
    simp [distWorkerFinish, hc, h]

/-- Witness for `C5_worker_finish`: the concrete collocated worker writes
only its node id; the concrete remote worker writes all three keys. -/
theorem C5_worker_finish_witness :
    (distWorkerFinish serEx workerCol).output = ⟨some "gw0", none, none⟩
  ∧ (distWorkerFinish serEx workerRemote).output
      = ⟨some "gw0", some "/w", some ((distWorkerFinish serEx workerRemote).dataBuffer)⟩ := by
  constructor
  · exact ((C5_worker_finish serEx workerCol rfl).1 rfl).1
  · exact ((C5_worker_finish serEx workerRemote rfl).2 rfl).1

/-- C6: `set_env` (invoked with no `COV_CORE_BRANCH` in the environment)
writes exactly: `COV_CORE_SOURCE` = pathsep-join of the roots, or a lone
pathsep for the measure-everything sentinel; `COV_CORE_CONFIG` = absolute
config path when that file exists, else a lone pathsep (missing config is
not an error); `COV_CORE_DATAFILE` = absolute data-file path; and
`COV_CORE_BRANCH` = `enabled` iff branch coverage is on. -/
theorem C6_set_env_values (sys : Sys) (cov_source : Option (List String))
    (cov_config data_file : String) (cov_branch : Bool) (env : EnvChannel)
    (h : env.branch = none) :
    (cov_source = none →
      (set_env sys cov_source cov_config data_file cov_branch env).source
        = some sys.pathsep)
  ∧ (∀ roots, cov_source = some roots →
      (set_env sys cov_source cov_config data_file cov_branch env).source
        = some (String.intercalate sys.pathsep roots))
  ∧ (sys.pathExists (sys.abspath cov_config) = true →
      (set_env sys cov_source cov_config data_file cov_branch env).config
        = some (sys.abspath cov_config))
  ∧ (sys.pathExists (sys.abspath cov_config) = false →
      (set_env sys cov_source cov_config data_file cov_branch env).config
        = some sys.pathsep)
  ∧ (set_env sys cov_source cov_config data_file cov_branch env).datafile
      = some (sys.abspath data_file)
  ∧ ((set_env sys cov_source cov_config data_file cov_branch env).branch
      = some "enabled" ↔ cov_branch = true) := by
  refine ⟨?_, ?_, ?_, ?_, ?_, ?_⟩
  · intro hs; simp [set_env, hs]
  · intro roots hs; simp [set_env, hs]
  · intro he; simp [set_env, he]
  · intro he; simp [set_env, he]
  · simp [set_env]
  · cases hb : cov_branch <;> simp [set_env, hb, h]

/-- Witness for `C6_set_env_values` at concrete inputs: two roots joined
with `:`, a config file that does not exist, branch coverage on. -/
theorem C6_set_env_values_witness :
    (set_env sysEx (some ["a", "b"]) ".rc" ".cov" true envEmpty).source = some "a:b"
  ∧ (set_env sysEx (some ["a", "b"]) ".rc" ".cov" true envEmpty).config = some ":"
  ∧ (set_env sysEx (some ["a", "b"]) ".rc" ".cov" true envEmpty).datafile
      = some "/abs/.cov"
  ∧ (set_env sysEx (some ["a", "b"]) ".rc" ".cov" true envEmpty).branch
      = some "enabled" := by
  have h := C6_set_env_values sysEx (some ["a", "b"]) ".rc" ".cov" true envEmpty rfl
  refine ⟨?_, ?_, ?_, h.2.2.2.2.2.mpr rfl⟩
  · rw [h.2.1 ["a", "b"] rfl]; decide
  · rw [h.2.2.2.1 rfl]
    rfl
  · rw [h.2.2.2.2.1]; decide

/-- C7 counterexample, two failing cases of the claim as stated. Central
with branch coverage off and a stale `COV_CORE_BRANCH=enabled` in the
pre-start environment: `set_env` does not clear the stale variable, but
`pause` pops it and `resume` does not restore it, so the channel after
pause-resume differs from the channel after start. DistMaster started in
an empty environment: `DistMaster.start` never populates the channel, but
the base-class `resume` calls `set_env`, so after pause-resume the
channel differs from its (untouched) after-start contents. -/
theorem C7_pause_resume_counterexample :
    (centralResume sysEx (centralPause (centralStart sysEx cfgEx envStaleBranch))).env
      ≠ (centralStart sysEx cfgEx envStaleBranch).env
  ∧ (masterResume sysEx (masterPause (distMasterStart sysEx cfgEx envEmpty []))).env
      ≠ (distMasterStart sysEx cfgEx envEmpty []).env := by
  constructor
  · decide
  · decide

/-- Core of C7 (amended): with branch coverage on, or with no
`COV_CORE_BRANCH` in the environment `set_env` last ran on,
`set_env` after `unset_env` after `set_env` equals a single `set_env`. -/
theorem set_env_unset_env_set_env (sys : Sys) (src : Option (List String))
    (cfg df : String) (b : Bool) (env : EnvChannel)
    (h : b = true ∨ env.branch = none) :
    set_env sys src cfg df b (unset_env (set_env sys src cfg df b env))
      = set_env sys src cfg df b env := by
  rcases h with hb | hb
  · simp [set_env, unset_env, hb]
  · cases hcb : b <;> simp [set_env, unset_env, hb, hcb]

/-- C7 (amended): for a started Central or DistWorker controller, provided
branch coverage is on or `COV_CORE_BRANCH` was absent from the environment
before start (and the filesystem is unchanged), pause followed by resume
restores the Environment Channel to exactly its after-start contents; for
every variant, once one pause-resume cycle has run, any further
alternation of pause/resume leaves the channel unchanged. For DistMaster
the restoration part fails structurally: `start()` leaves the channel
untouched while `resume()`'s `set_env` populates it, so after pause-resume
the master's channel holds the `set_env` values, not its after-start
contents. -/
theorem C7_pause_resume_amended (sys : Sys) (c : RunConfig) (env0 : EnvChannel)
    (h : c.cov_branch = true ∨ env0.branch = none) :
    ((centralResume sys (centralPause (centralStart sys c env0))).env
        = (centralStart sys c env0).env)
  ∧ (∀ wi : WorkerInput,
      (workerResume sys (workerPause (distWorkerStart sys wi c env0))).env
        = (distWorkerStart sys wi c env0).env)
  ∧ (∀ cc : CentralCtl,
      (centralResume sys (centralPause (centralResume sys (centralPause cc)))).env
        = (centralResume sys (centralPause cc)).env)
  ∧ (∀ w : WorkerCtl,
      (workerResume sys (workerPause (workerResume sys (workerPause w)))).env
        = (workerResume sys (workerPause w)).env)
  ∧ (∀ m : MasterCtl,
      (masterResume sys (masterPause (masterResume sys (masterPause m)))).env
        = (masterResume sys (masterPause m)).env)
  ∧ ((distMasterStart sys c env0 []).env = env0)
  ∧ (∀ rsyncdirs0 : List String,
      (masterResume sys (masterPause (distMasterStart sys c env0 rsyncdirs0))).env
        = set_env sys c.cov_source c.cov_config c.data_file c.cov_branch
            (unset_env env0)) := by
  refine ⟨?_, ?_, fun cc => rfl, fun w => rfl, fun m => rfl, rfl, fun rs => rfl⟩
  · exact set_env_unset_env_set_env sys c.cov_source c.cov_config c.data_file
      c.cov_branch env0 h
  · intro wi
    exact set_env_unset_env_set_env sys (workerSources sys wi c)
      (workerConfigFile sys wi c) c.data_file c.cov_branch env0 h

/-- Witness for `C7_pause_resume_amended`: a concrete Central controller
and a concrete worker controller, each started in an empty environment. -/
theorem C7_pause_resume_amended_witness :
    (centralResume sysEx (centralPause (centralStart sysEx cfgEx envEmpty))).env
      = (centralStart sysEx cfgEx envEmpty).env
  ∧ (workerResume sysEx (workerPause (distWorkerStart sysEx wiEx cfgEx envEmpty))).env
      = (distWorkerStart sysEx wiEx cfgEx envEmpty).env :=
  ⟨(C7_pause_resume_amended sysEx cfgEx envEmpty (Or.inr rfl)).1,
   (C7_pause_resume_amended sysEx cfgEx envEmpty (Or.inr rfl)).2.1 wiEx⟩

/-- C8: the suffix allocated by `DistMaster.testnodedown` is hostname,
pid, zero-padded random component and worker node identifier, in that
order and dot-separated; and for fixed hostname, pid and random value,
distinct node identifiers always yield distinct suffixes. -/
theorem C8_suffix_format_and_distinct (hostname : String) (pid rand : Nat) :
    (∀ nodeId, dataSuffix hostname pid rand nodeId
        = hostname ++ "." ++ toString pid ++ "." ++ pad6 rand ++ "." ++ nodeId)
  ∧ ∀ n1 n2 : String, n1 ≠ n2 →
      dataSuffix hostname pid rand n1 ≠ dataSuffix hostname pid rand n2 := by
  constructor
  · intro nodeId; rfl
  · intro n1 n2 hne heq
    apply hne
    have hd := congrArg String.data heq
    simp only [dataSuffix, String.data_append, List.append_assoc,
      List.append_cancel_left_eq] at hd
    exact String.ext hd

/-- Witness for `C8_suffix_format_and_distinct` at a fixed host, pid and
random value and two distinct node identifiers. -/
theorem C8_suffix_witness :
    dataSuffix "mhost" 42 7 "gw0" ≠ dataSuffix "mhost" 42 7 "gw1" :=
  (C8_suffix_format_and_distinct "mhost" 42 7).2 "gw0" "gw1" (by decide)

/-- C9 counterexample: the claim attributes one of the two node
descriptors to "the master's own run", but `DistMaster.start` and
`DistMaster.finish` never record a descriptor (unlike `Central.finish`):
a master that starts and finishes with no worker disconnects ends with an
empty descriptor set. -/
theorem C9_descs_counterexample :
    (distMasterFinish (distMasterStart sysEx cfgEx envEmpty [])).node_descs = ∅ := rfl

/-- C9 (amended): in the end-to-end scenario (one master, one collocated
worker with the master's platform metadata, one non-collocated worker
with a distinct descriptor), after both disconnects and `finish()` the
descriptor set has exactly 2 entries: the collocated worker's descriptor
(identical to the master's platform descriptor, deduplicated set) and the
non-collocated worker's remote descriptor. The master's own start/finish
contribute no descriptor. -/
theorem C9_descs_amended (sys : Sys) (c : RunConfig) (env0 : EnvChannel)
    (n1 n2 : Node) (a b p d : String) (r1 r2 : Nat)
    (h1 : n1.platform = sys.platform) (h2 : n1.versionInfo = sys.versionInfo)
    (hd : get_node_desc n2.platform n2.versionInfo
            ≠ get_node_desc sys.platform sys.versionInfo) :
    ∃ m : MasterCtl,
      masterScenario sys c env0 n1 n2 ⟨some a, none, none⟩ ⟨some b, some p, some d⟩ r1 r2
        = some m
      ∧ m.node_descs
          = {get_node_desc n2.platform n2.versionInfo,
             get_node_desc sys.platform sys.versionInfo}
      ∧ m.node_descs.card = 2
      ∧ (distMasterFinish (distMasterStart sys c env0 [])).node_descs = ∅ := by
  refine ⟨_, rfl, ?_, ?_, rfl⟩
  · show insert (get_node_desc n2.platform n2.versionInfo)
        (insert (get_node_desc n1.platform n1.versionInfo) ∅) = _
    rw [h1, h2]
    simp
  · show (insert (get_node_desc n2.platform n2.versionInfo)
        (insert (get_node_desc n1.platform n1.versionInfo)
          (∅ : Finset String))).card = 2
    rw [h1, h2]
    rw [Finset.card_insert_of_not_mem (by simp [hd])]
    simp

/-- Witness for `C9_descs_amended` at concrete nodes: the collocated node
shares the master's `linux` platform, the remote node reports `win32`. -/
theorem C9_descs_witness :
    ∃ m : PytestCov.MasterCtl,
      masterScenario sysEx cfgEx envEmpty nodeSame nodeOther
          ⟨some "gw0", none, none⟩ ⟨some "gw1", some "/w2", some "data"⟩ 1 2
        = some m
      ∧ m.node_descs
          = {get_node_desc nodeOther.platform nodeOther.versionInfo,
             get_node_desc sysEx.platform sysEx.versionInfo}
      ∧ m.node_descs.card = 2
      ∧ (distMasterFinish (distMasterStart sysEx cfgEx envEmpty [])).node_descs = ∅ :=
  C9_descs_amended sysEx cfgEx envEmpty nodeSame nodeOther "gw0" "gw1" "/w2" "data" 1 2
    rfl rfl (by decide)

/-- Arithmetic core of C10: `sep_total + len(txt) + 2 = max(70, len(txt) + 4)`. -/
theorem sepTotal_add (txt : String) :
    sepTotal txt + txt.length + 2 = max 70 (txt.length + 4) := by
  unfold sepTotal
  omega

/-- C10: the fallback separator line written by `CovController.sep` (for a
stream without a `sep` attribute and a one-character separator) has total
length, excluding the trailing newline, exactly `max 70 (len txt + 4)`;
the title is surrounded by two separator runs whose lengths differ by at
most one, the right run being the longer exactly when the padding total is
odd. -/
theorem C10_sep_line (s : Char) (txt : String) :
    (sepLine s txt).length = max 70 (txt.length + 4) + 1
  ∧ ∃ L R : Nat,
      sepLine s txt
        = List.replicate L s ++
            ' ' :: (txt.data ++ ' ' :: (List.replicate R s ++ ['\n']))
      ∧ L ≤ R ∧ R ≤ L + 1 ∧ (L < R ↔ sepTotal txt % 2 = 1) := by
  constructor
  · rw [← sepTotal_add txt]
    have hlen : txt.length = txt.data.length := rfl
    simp only [sepLine, List.length_append, List.length_replicate, List.length_cons,
      List.length_nil]
    omega
  · exact ⟨sepTotal txt / 2, sepTotal txt / 2 + sepTotal txt % 2, rfl,
      by omega, by omega, by omega⟩

end PytestCov
